import Mathlib

/-!
Shallow embedding of `src/lib.rs` of the `fatal` crate.

The crate is a set of fatal-exit helpers: `fatal!` (eprintln + exit 1),
`error!` (prefix "Error: " + fatal), the internal prefix writers (plain and
colored via termcolor), and the result helpers `unwrap`, `expect`,
`unwrap_format!`, `unwrap_message!`.

The embedding gives every helper a trace semantics: running a helper yields
the ordered list of observable stderr events (content writes, color set and
reset) together with an outcome — a normal return with a value, a process
exit with a code (from `::std::process::exit`), or a panic.  The panic
outcome models the documented behavior of `::std::eprint!` and
`::std::eprintln!`: per the Rust standard-library documentation they panic
if writing to `io::stderr` fails.  Which stream operations succeed in a
given scenario is captured by a `StreamCond` record, so best-effort and
fallback behavior can be stated for every combination of failures.

Rust generics are mirrored by Lean type parameters; a `Result<T, E>` is an
`Except E T`, and the `Display` bound on `E` becomes an explicit display
function `E → String`.  The `color` cargo feature is a `Bool` parameter.
-/

namespace Fatal

/-- The fixed prefix produced by the source macro get_error_prefix! : the
literal string written before error messages by `error!`. -/
def get_error_prefix : String := "Error: "

/-- An observable event on the standard-error stream: a successful content
write, setting the foreground color to red, or resetting the color. -/
inductive Ev where
  | write (s : String)
  | setRed
  | reset
  deriving DecidableEq

/-- Which stderr operations succeed in a given run.  `setColorOk`,
`writeOk` and `resetOk` concern the termcolor stream used by
`internal_write_red_error_prefix` (set_color, write!, reset); `eprintOk`
concerns writes made through `::std::eprint!` and `::std::eprintln!`. -/
structure StreamCond where
  setColorOk : Bool
  writeOk : Bool
  resetOk : Bool
  eprintOk : Bool
  deriving DecidableEq

/-- A fully working error stream. -/
def okStream : StreamCond := ⟨true, true, true, true⟩

/-- Outcome of running a helper: a normal return carrying a value, a call
of `::std::process::exit` with the given code, or a Rust panic. -/
inductive Outcome (T : Type) where
  | ret (t : T)
  | exited (code : Nat)
  | panicked
  deriving DecidableEq

/-- The content writes of a trace, in order, dropping color events. -/
def writesOf : List Ev → List String
  | [] => []
  | Ev.write s :: es => s :: writesOf es
  | Ev.setRed :: es => writesOf es
  | Ev.reset :: es => writesOf es

/-- Model of `::std::eprint!(s)`: on success one content write of `s`;
per the std documentation it panics if the write to stderr fails. -/
def eprint (c : StreamCond) (s : String) : List Ev × Outcome Unit :=
  if c.eprintOk then ([Ev.write s], Outcome.ret ()) else ([], Outcome.panicked)

/-- Model of `::std::eprintln!(s)`: like ` eprint` with a trailing newline. -/
def eprintln (c : StreamCond) (s : String) : List Ev × Outcome Unit :=
  eprint c (s ++ "\n")

/-- Sequencing of effectful steps: run `x`; only if it returned normally,
run the continuation, accumulating the traces. -/
def andThen (x : List Ev × Outcome Unit) (k : Unit → List Ev × Outcome A) :
    List Ev × Outcome A :=
  match x with
  | (evs, Outcome.ret u) =>
    match k u with
    | (evs2, o) => (evs ++ evs2, o)
  | (evs, Outcome.exited n) => (evs, Outcome.exited n)
  | (evs, Outcome.panicked) => (evs, Outcome.panicked)

/-- An `Outcome Empty` (a computation that can never return normally)
reinterpreted at any value type. -/
def Outcome.ofNever : Outcome Empty → Outcome T
  | Outcome.ret e => e.elim
  | Outcome.exited n => Outcome.exited n
  | Outcome.panicked => Outcome.panicked

/-- Reinterpret a never-returning run at any value type. -/
def runNever (x : List Ev × Outcome Empty) : List Ev × Outcome T :=
  (x.1, Outcome.ofNever x.2)

/-- The `fatal!` macro.  `fatal!()` is `::std::process::exit(1)`;
`fatal!(args)` is `::std::eprintln!(args)` followed by `fatal!()`.  The
already-formatted message is passed as an optional string. -/
def fatal (c : StreamCond) : Option String → List Ev × Outcome Empty
  | none => ([], Outcome.exited 1)
  | some m => andThen ( eprintln c m) (fun _ => ([], Outcome.exited 1))

/-- `internal_write_red_error_prefix` (the `color` feature build): create a
termcolor stderr stream, try `set_color(red)` — returning `false` at once
if that fails — then `write!` the prefix recording whether it succeeded,
then `reset()` ignoring any error, and return whether the write printed. -/
def internal_write_red_error_prefix (c : StreamCond) : List Ev × Bool :=
  if c.setColorOk then
    ([Ev.setRed]
      ++ (if c.writeOk then [Ev.write get_error_prefix] else [])
      ++ (if c.resetOk then [Ev.reset] else []),
     c.writeOk)
  else ([], false)

/-- `internal_write_error_prefix`: with the `color` feature, call
` internal_write_red_error_prefix` and, if it did not print, fall back to a
plain `eprint!` of the prefix; without the feature, plain `eprint!` only. -/
def internal_write_error_prefix (color : Bool) (c : StreamCond) :
    List Ev × Outcome Unit :=
  if color then
    match internal_write_red_error_prefix c with
    | (evs, true) => (evs, Outcome.ret ())
    | (evs, false) =>
      match eprint c get_error_prefix with
      | (evs2, o) => (evs ++ evs2, o)
  else eprint c get_error_prefix

/-- The `error!` macro.  `error!()` is `fatal!()`; with a message it first
calls ` internal_write_error_prefix` and then `fatal!` with the message. -/
def error (color : Bool) (c : StreamCond) : Option String → List Ev × Outcome Empty
  | none => fatal c none
  | some m => andThen ( internal_write_error_prefix color c) (fun _ => fatal c (some m))

/-- `fatal::unwrap`: `result.unwrap_or_else(|e| error!("{}", e))`.
`d` is the `Display` implementation of the error type. -/
def unwrap (color : Bool) (c : StreamCond) (d : E → String) :
    Except E T → List Ev × Outcome T
  | Except.ok t => ([], Outcome.ret t)
  | Except.error e => runNever ( error color c (some (d e)))

/-- `fatal::expect`: `result.unwrap_or_else(|e| error!("{} ({})", message, e))`. -/
def expect (color : Bool) (c : StreamCond) (d : E → String)
    (r : Except E T) (message : String) : List Ev × Outcome T :=
  match r with
  | Except.ok t => ([], Outcome.ret t)
  | Except.error e => runNever ( error color c (some (message ++ " (" ++ d e ++ ")")))

/-- Character-level substitution of the named format slot `\x7berror\x7d`:
each occurrence is replaced by `err`, scanning left to right, and the
substituted text is not rescanned (as in Rust formatting). -/
def substErrorChars (err : List Char) : List Char → List Char
  | '\x7b' :: 'e' :: 'r' :: 'r' :: 'o' :: 'r' :: '\x7d' :: cs =>
    err ++ substErrorChars err cs
  | ch :: cs => ch :: substErrorChars err cs
  | [] => []

/-- Substitution of the named format parameter `error`: models Rust
`format!(template, error=e)` for templates whose only format parameter is
the named slot, replacing each occurrence of the slot by the error's
display text. -/
def formatWithError (template err : String) : String :=
  String.mk (substErrorChars err.data template.data)

/-- The `unwrap_format!` macro (single-template form):
`result.unwrap_or_else(|e| error!(template, error=e))`. -/
def unwrap_format (color : Bool) (c : StreamCond) (d : E → String)
    (r : Except E T) (template : String) : List Ev × Outcome T :=
  match r with
  | Except.ok t => ([], Outcome.ret t)
  | Except.error e => runNever ( error color c (some (formatWithError template (d e))))

/-- The `unwrap_message!` macro:
`result.unwrap_or_else(|e| error!(concat!(template, " ({error})"), error=e))`,
i.e. ` unwrap_format` on the template with `" ({error})"` appended. -/
def unwrap_message (color : Bool) (c : StreamCond) (d : E → String)
    (r : Except E T) (template : String) : List Ev × Outcome T :=
  unwrap_format color c d r (template ++ " ({error})")

/-- `UnwrapExt::unwrap_fatal`, the extension-trait synonym of ` unwrap`. -/
def unwrap_fatal (color : Bool) (c : StreamCond) (d : E → String)
    (r : Except E T) : List Ev × Outcome T :=
  unwrap color c d r

/-- `UnwrapExt::expect_fatal`, the extension-trait synonym of ` expect`. -/
def expect_fatal (color : Bool) (c : StreamCond) (d : E → String)
    (r : Except E T) (message : String) : List Ev × Outcome T :=
  expect color c d r message

/-- C1: on a success-valued result `Ok t`, each unwrap helper — ` unwrap`,
` expect` (and their extension-trait synonyms), ` unwrap_format` and
` unwrap_message` — returns the payload `t` unchanged, produces an empty
stderr trace and does not exit.  The statement is universally quantified
over the display function `d` and the template, and the right-hand sides do
not mention them: the success path is independent of any formatting. -/
theorem c1_success_payload_unchanged (T E : Type) (color : Bool)
    (c : StreamCond) (d : E → String) (t : T) (m template : String) :
    unwrap color c d (Except.ok t) = ([], Outcome.ret t) ∧
    expect color c d (Except.ok t) m = ([], Outcome.ret t) ∧
    unwrap_fatal color c d (Except.ok t) = ([], Outcome.ret t) ∧
    expect_fatal color c d (Except.ok t) m = ([], Outcome.ret t) ∧
    unwrap_format color c d (Except.ok t) template = ([], Outcome.ret t) ∧
    unwrap_message color c d (Except.ok t) template = ([], Outcome.ret t) :=
  ⟨rfl, rfl, rfl, rfl, rfl, rfl⟩

/-- C2: on a failure-valued result `Err e`, with a working stream,
` unwrap` writes the full prefix "Error: " before any message content, then
writes the display representation of `e` as the sole message followed by a
newline, and the run ends in `process::exit(1)` — it never returns. -/
theorem c2_unwrap_failure_output (T E : Type) (color : Bool)
    (c : StreamCond) (d : E → String) (e : E)
    (h1 : c.eprintOk = true) (h2 : c.setColorOk = true) (h3 : c.writeOk = true) :
    writesOf ( unwrap color c d (Except.error e : Except E T)).1
      = [ get_error_prefix, d e ++ "\n"] ∧
    ( unwrap color c d (Except.error e : Except E T)).2 = Outcome.exited 1 := by
  obtain ⟨sc, w, r, ep⟩ := c
  simp only at h1 h2 h3
  subst h1 h2 h3
  cases color <;> cases r <;> exact ⟨rfl, rfl⟩

/-- Witness for C2, at the concrete input `unwrap(Err("404"))` without the
color feature and with a fully working stream. -/
theorem c2_unwrap_failure_output_witness :
    writesOf ( unwrap false okStream (fun s => s)
        (Except.error "404" : Except String Unit)).1
      = [ get_error_prefix, "404" ++ "\n"] ∧
    ( unwrap false okStream (fun s => s)
        (Except.error "404" : Except String Unit)).2 = Outcome.exited 1 :=
  c2_unwrap_failure_output Unit String false okStream (fun s => s) "404" rfl rfl rfl

/-- C3: on a failure-valued result `Err e`, ` expect` composes the message
`"<m> (<display of e>)"` and passes it to the prefixed terminator ` error`;
in particular `expect(Err(404), "fetch failed")` produces the error-stream
output "Error: fetch failed (404)" (one line, newline-terminated), both
with and without the color feature, and then exits with code 1. -/
theorem c3_expect_failure_message (T E : Type) (color : Bool)
    (c : StreamCond) (d : E → String) (e : E) (m : String) :
    expect color c d (Except.error e : Except E T) m
      = runNever ( error color c (some (m ++ " (" ++ d e ++ ")"))) ∧
    String.join (writesOf ( expect false okStream (fun n : Nat => toString n)
        (Except.error 404 : Except Nat Unit) "fetch failed").1)
      = "Error: fetch failed (404)\n" ∧
    String.join (writesOf ( expect true okStream (fun n : Nat => toString n)
        (Except.error 404 : Except Nat Unit) "fetch failed").1)
      = "Error: fetch failed (404)\n" ∧
    ( expect false okStream (fun n : Nat => toString n)
        (Except.error 404 : Except Nat Unit) "fetch failed").2 = Outcome.exited 1 :=
  ⟨rfl, by decide, by decide, by decide⟩

/-- C4: the only exit code any helper can produce is 1.  `fatal!()` and
`error!()` exit with code 1 outright; every failure branch (`fatal!` and
`error!` with a message, and the failure paths of ` unwrap`, ` expect`,
` unwrap_format`, ` unwrap_message`) either exits with code 1 or ends in
the std panic raised by a failed stderr write — no other exit code is ever
selected, for any stream condition, message content or emptiness. -/
theorem c4_exit_code_always_one (T E : Type) (color : Bool) (c : StreamCond)
    (d : E → String) (e : E) (m template : String) :
    fatal c none = ([], Outcome.exited 1) ∧
    error color c none = ([], Outcome.exited 1) ∧
    (( fatal c (some m)).2 = Outcome.exited 1 ∨
      ( fatal c (some m)).2 = Outcome.panicked) ∧
    (( error color c (some m)).2 = Outcome.exited 1 ∨
      ( error color c (some m)).2 = Outcome.panicked) ∧
    (( unwrap color c d (Except.error e : Except E T)).2 = Outcome.exited 1 ∨
      ( unwrap color c d (Except.error e : Except E T)).2 = Outcome.panicked) ∧
    (( expect color c d (Except.error e : Except E T) m).2 = Outcome.exited 1 ∨
      ( expect color c d (Except.error e : Except E T) m).2 = Outcome.panicked) ∧
    (( unwrap_format color c d (Except.error e : Except E T) template).2 = Outcome.exited 1 ∨
      ( unwrap_format color c d (Except.error e : Except E T) template).2 = Outcome.panicked) ∧
    (( unwrap_message color c d (Except.error e : Except E T) template).2 = Outcome.exited 1 ∨
      ( unwrap_message color c d (Except.error e : Except E T) template).2 = Outcome.panicked) := by
  obtain ⟨sc, w, r, ep⟩ := c
  cases color <;> cases sc <;> cases w <;> cases r <;> cases ep <;>
    first
      | exact ⟨rfl, rfl, Or.inl rfl, Or.inl rfl, Or.inl rfl, Or.inl rfl,
          Or.inl rfl, Or.inl rfl⟩
      | exact ⟨rfl, rfl, Or.inr rfl, Or.inr rfl, Or.inr rfl, Or.inr rfl,
          Or.inr rfl, Or.inr rfl⟩

/-- C5: `error!()` with no message writes nothing at all to the error
stream — in particular no bare "Error: " prefix — and still exits with
status 1; it is exactly the no-message behavior of `fatal!()`, for every
stream condition and in both color modes. -/
theorem c5_error_no_message_no_writes (color : Bool) (c : StreamCond) :
    error color c none = ([], Outcome.exited 1) ∧
    error color c none = fatal c none :=
  ⟨rfl, rfl⟩

/-- C6: on a failure-valued result, ` unwrap_message` appends the literal
`" (\x7berror\x7d)"` to the caller's template and delegates to the prefixed
terminator through ` unwrap_format`; the appended suffix renders as
`" (<error>)"` for every error text, and the concrete run
`unwrap_message!(Err("disk full"), "failed to save")` produces the
error-stream output "Error: failed to save (disk full)" and exits 1. -/
theorem c6_unwrap_message_appends (T E : Type) (color : Bool)
    (c : StreamCond) (d : E → String) (e : E) (template err : String) :
    unwrap_message color c d (Except.error e : Except E T) template
      = runNever ( error color c
          (some (formatWithError (template ++ " ({error})") (d e)))) ∧
    formatWithError " ({error})" err = " (" ++ err ++ ")" ∧
    String.join (writesOf ( unwrap_message false okStream (fun s => s)
        (Except.error "disk full" : Except String Unit) "failed to save").1)
      = "Error: failed to save (disk full)\n" ∧
    ( unwrap_message false okStream (fun s => s)
        (Except.error "disk full" : Except String Unit) "failed to save").2
      = Outcome.exited 1 :=
  ⟨rfl, rfl, by decide, by decide⟩

/-- C7: on a failure-valued result, ` unwrap_format` formats the caller's
template with the failure's display text bound to the named slot `error`
and delegates to the prefixed terminator; the slot substitutes to the error
text for every error value, and the concrete run
`unwrap_format!(Err("disk full"), "failed: \x7berror\x7d")` produces the
error-stream output "Error: failed: disk full" and exits 1. -/
theorem c7_unwrap_format_slot (T E : Type) (color : Bool)
    (c : StreamCond) (d : E → String) (e : E) (template err : String) :
    unwrap_format color c d (Except.error e : Except E T) template
      = runNever ( error color c (some (formatWithError template (d e)))) ∧
    formatWithError "failed: {error}" err = "failed: " ++ err ∧
    String.join (writesOf ( unwrap_format false okStream (fun s => s)
        (Except.error "disk full" : Except String Unit) "failed: {error}").1)
      = "Error: failed: disk full\n" ∧
    ( unwrap_format false okStream (fun s => s)
        (Except.error "disk full" : Except String Unit) "failed: {error}").2
      = Outcome.exited 1 := by
  refine ⟨rfl, ?_, by decide, by decide⟩
  refine congrArg String.mk ?_
  rw [show substErrorChars err.data ("failed: {error}".data)
        = "failed: ".data ++ (err.data ++ substErrorChars err.data []) from rfl]
  rw [show substErrorChars err.data ([] : List Char) = [] from rfl, List.append_nil]

/-- C8 counterexample: with a broken error stream (every std write fails),
`fatal!("boom")` does not exit with status 1 — it ends in the panic that
`::std::eprintln!` raises when writing to stderr fails (documented std
behavior), so the write failure is not ignored. -/
theorem c8_write_failure_counterexample :
    ( fatal ⟨true, true, true, false⟩ (some "boom")).2 = Outcome.panicked ∧
    ¬ ( fatal ⟨true, true, true, false⟩ (some "boom")).2 = Outcome.exited 1 := by
  decide

/-- C8 as amended: the unconditional terminator `fatal!` is best-effort
only when the stream works.  With a message, it writes the line and exits
with status 1 exactly when the stderr write succeeds; when the write fails,
`::std::eprintln!` panics, so the process terminates abnormally instead of
exiting with status 1.  With no message there is no write, and it exits
with status 1 regardless of the stream. -/
theorem c8_write_failure_panics (c : StreamCond) (m : String) :
    fatal c (some m)
      = (if c.eprintOk = true then ([Ev.write (m ++ "\n")], Outcome.exited 1)
         else ([], Outcome.panicked)) ∧
    fatal c none = ([], Outcome.exited 1) := by
  obtain ⟨sc, w, r, ep⟩ := c
  cases ep <;> exact ⟨rfl, rfl⟩

/-- C9: with the color feature, if `set_color(red)` fails the prefix writer
falls back to exactly one plain write of "Error: " (no color events, no
further fallback); and failures of `reset()` are ignored — neither the
returned flag nor the content writes of ` internal_write_red_error_prefix`
depend on whether reset succeeds, and after a successful colored write the
prefix writer reports success whatever reset did. -/
theorem c9_color_fallback (w r ep b₁ b₂ : Bool) (hep : ep = true) :
    internal_write_error_prefix true ⟨false, w, r, ep⟩
      = ([Ev.write get_error_prefix], Outcome.ret ()) ∧
    ( internal_write_red_error_prefix ⟨true, w, b₁, ep⟩).2
      = ( internal_write_red_error_prefix ⟨true, w, b₂, ep⟩).2 ∧
    writesOf ( internal_write_red_error_prefix ⟨true, w, b₁, ep⟩).1
      = writesOf ( internal_write_red_error_prefix ⟨true, w, b₂, ep⟩).1 ∧
    ( internal_write_error_prefix true ⟨true, true, b₁, ep⟩).2 = Outcome.ret () := by
  subst hep
  cases w <;> cases r <;> cases b₁ <;> cases b₂ <;> exact ⟨rfl, rfl, rfl, rfl⟩

/-- Witness for C9: set_color failing with a working std stream, and reset
failing versus succeeding. -/
theorem c9_color_fallback_witness :
    internal_write_error_prefix true ⟨false, true, false, true⟩
      = ([Ev.write get_error_prefix], Outcome.ret ()) ∧
    ( internal_write_red_error_prefix ⟨true, true, false, true⟩).2
      = ( internal_write_red_error_prefix ⟨true, true, true, true⟩).2 ∧
    writesOf ( internal_write_red_error_prefix ⟨true, true, false, true⟩).1
      = writesOf ( internal_write_red_error_prefix ⟨true, true, true, true⟩).1 ∧
    ( internal_write_error_prefix true ⟨true, true, false, true⟩).2 = Outcome.ret () :=
  c9_color_fallback true false true false true rfl

/-- C10: ` internal_write_red_error_prefix` returns whether the colored
prefix write actually printed (true exactly when both set_color and the
write succeed), and whenever that flag is false — including the case where
the color was set but the colored write itself failed —
` internal_write_error_prefix` falls back to the plain "Error: " prefix,
so the plain prefix is the single content write of the run. -/
theorem c10_red_write_reported :
    (∀ c : StreamCond,
      ( internal_write_red_error_prefix c).2 = (c.setColorOk && c.writeOk)) ∧
    (∀ c : StreamCond,
      ( internal_write_red_error_prefix c).2 = false → c.eprintOk = true →
        writesOf ( internal_write_error_prefix true c).1 = [ get_error_prefix] ∧
        ( internal_write_error_prefix true c).2 = Outcome.ret ()) := by
  constructor
  · rintro ⟨sc, w, r, ep⟩
    cases sc <;> cases w <;> rfl
  · rintro ⟨sc, w, r, ep⟩ h hep
    cases sc <;> cases w <;> cases r <;> cases ep <;>
      first
        | exact ⟨rfl, rfl⟩
        | exact Bool.noConfusion h
        | exact Bool.noConfusion hep

/-- Witness for C10: color set succeeds but the colored write fails; the
plain prefix is still the single content write. -/
theorem c10_red_write_reported_witness :
    writesOf ( internal_write_error_prefix true ⟨true, false, true, true⟩).1
      = [ get_error_prefix] ∧
    ( internal_write_error_prefix true ⟨true, false, true, true⟩).2
      = Outcome.ret () :=
  c10_red_write_reported.2 ⟨true, false, true, true⟩ rfl rfl

end Fatal
